import Mathlib

/-!
Verification of the flight-data CSV generator
(src/scripts/generate_flight_data_csv.py).

Shallow embedding conventions:
* Randomness: each call to `random.randint(a, b)` / `random.choice(l)` /
  `random.uniform` consumes one value from an ambient stream of natural
  numbers.  A draw from the integer range `[lo, hi]` is embedded as
  `lo + n % (hi - lo + 1)`, which always lands in `[lo, hi]` and reaches
  every value of the range as `n` varies (the uniform support).
  `random.randint(a, b)` raises `ValueError` when `b < a`; the embedding
  returns `Except.error` in that case.
* Dates: `datetime` values parsed from the `YYYY-MM-DD` configuration
  strings are embedded as integer day ordinals, so `(end - start).days`
  is plain integer subtraction and `start + timedelta(days = k)` is
  `start + k`.
* Floats: `random.uniform(60.0, 95.0)` rounded to 2 decimals is embedded
  as an integer number of centi-percent in `[6000, 9500]`; the float
  multiplications by the literals 0.6, 0.3, 1.5, 2.0 and by
  `load_factor / 100`, each truncated by `int(...)`, are embedded as
  exact integer arithmetic with floor division.
* The CSV file is a list of lines; opening with mode `'w'` truncates any
  previous content, so the final file content is independent of it.
-/

namespace FlightGen

/-- Aircraft type catalog from `FlightDataGeneratorCSV.__init__` (20 entries). -/
def aircraft_types : List String :=
  ["A320", "B737", "A321", "B738", "A319", "B739", "A20N", "B38M", "A21N", "B789",
   "A359", "B77W", "B788", "A333", "A350", "B772", "B77L", "A332", "B763", "A306"]

/-- Airline code catalog from `FlightDataGeneratorCSV.__init__` (10 entries). -/
def airline_codes : List String :=
  ["AA", "DL", "UA", "BA", "LH", "AF", "EK", "SQ", "QF", "JL"]

/-- Configuration: `total_records`, `batch_size`, and the date bounds as
day ordinals (the parsed `start_date` / `end_date` strings). -/
structure Config where
  total_records : Nat
  batch_size : Nat
  start_date : Int
  end_date : Int
  deriving DecidableEq

/-- One generated flight record, as returned by `generate_flight_record`.
`load_factor` is stored in centi-percent (the Python code stores the
2-decimal float, formatted with 2 fraction digits on output). -/
structure FlightRecord where
  record_id : Nat
  route_id : Nat
  flight_date : Int
  flight_number : String
  aircraft_type : String
  passengers : Nat
  load_factor : Nat
  cabin_class : String
  total_co2_kg : Nat
  co2_per_passenger_kg : Nat
  created_at : String
  deriving DecidableEq

/-- Embedding of `random.randint(lo, hi)` on a possibly-empty integer range:
raises (`Except.error`) when `hi < lo`, exactly as Python's
`randint` does, and otherwise returns a value of `[lo, hi]`. -/
def randint (lo hi : Int) (n : Nat) : Except String Int :=
  if hi < lo then Except.error "empty range for randrange()"
  else Except.ok (lo + (n : Int) % (hi - lo + 1))

/-- Embedding of `random.randint(lo, hi)` on a statically nonempty natural
range (`lo ≤ hi`): total, lands in `[lo, hi]`. -/
def randintNat (lo hi n : Nat) : Nat := lo + n % (hi + 1 - lo)

/-- Decides whether `needle` occurs at the head of `hay`. -/
def headMatch : List Char → List Char → Bool
  | [], _ => true
  | _ :: _, [] => false
  | a :: as, b :: bs => a = b && headMatch as bs

/-- Decides whether `needle` occurs anywhere in `hay`: embedding of
Python's substring operator `needle in hay`. -/
def containsSub (needle : List Char) : List Char → Bool
  | [] => headMatch needle []
  | b :: bs => headMatch needle (b :: bs) || containsSub needle bs

/-- Embedding of the narrow-body test
`'A3' in aircraft_type or 'B73' in aircraft_type`. -/
def isNarrowBody (s : String) : Bool :=
  containsSub "A3".toList s.toList || containsSub "B73".toList s.toList

/-- Pre-multiplier capacity draw: `randint(150, 220)` for narrow-body
aircraft types, `randint(250, 400)` otherwise. -/
def drawCapacity (a : String) (n : Nat) : Nat :=
  if isNarrowBody a then randintNat 150 220 n else randintNat 250 400 n

/-- Pre-multiplier base emission draw: `randint(80, 120)` for narrow-body
aircraft types, `randint(150, 250)` otherwise. -/
def drawBaseCo2 (a : String) (n : Nat) : Nat :=
  if isNarrowBody a then randintNat 80 120 n else randintNat 150 250 n

/-- Cabin class from the `random.randint(1, 100)` selector: `< 85` economy,
`< 97` business, otherwise first. -/
def cabinClassOf (rand_val : Nat) : String :=
  if rand_val < 85 then "economy"
  else if rand_val < 97 then "business"
  else "first"

/-- Cabin-class capacity scaling: `int(max_pax * 0.6)` for business,
`int(max_pax * 0.3)` for first, unchanged for economy (exact rational
scaling with truncation). -/
def cabinScaledPax (cabin : String) (max_pax : Nat) : Nat :=
  if cabin = "business" then max_pax * 6 / 10
  else if cabin = "first" then max_pax * 3 / 10
  else max_pax

/-- Cabin-class emission scaling: `int(base_co2 * 1.5)` for business,
`int(base_co2 * 2.0)` for first, unchanged for economy. -/
def cabinScaledCo2 (cabin : String) (base_co2 : Nat) : Nat :=
  if cabin = "business" then base_co2 * 3 / 2
  else if cabin = "first" then base_co2 * 2
  else base_co2

/-- Load factor draw `round(random.uniform(60.0, 95.0), 2)`, in
centi-percent: a value of `[6000, 9500]`. -/
def loadFactorCenti (n : Nat) : Nat := randintNat 6000 9500 n

/-- Passenger count `int(max_pax * (load_factor / 100))` with the load
factor in centi-percent. -/
def passengersOf (max_pax lf : Nat) : Nat := max_pax * lf / 10000

/-- Decimal digit character of `d % 10`. -/
def digitChar (d : Nat) : Char := Char.ofNat (48 + d % 10)

/-- Embedding of the format `f"\x7bn:04d\x7d"` on the domain actually used,
`100 ≤ n ≤ 9999`: the four decimal digits, zero-padded. -/
def pad4 (n : Nat) : String :=
  String.mk [digitChar (n / 1000), digitChar (n / 100), digitChar (n / 10), digitChar n]

/-- Flight number: a uniformly chosen airline code, a `randint(100, 9999)`
suffix formatted as `04d`, concatenated and truncated to 10 characters
(the slice `[:10]`). -/
def mkFlightNumber (a s : Nat) : String :=
  String.mk (((airline_codes.getD (a % airline_codes.length) "").toList
    ++ (pad4 (randintNat 100 9999 s)).toList).take 10)

/-- Aircraft type: `random.choice(self.aircraft_types)`. -/
def aircraftTypeOf (n : Nat) : String :=
  aircraft_types.getD (n % aircraft_types.length) ""

/-- The record built once the flight-date offset draw has succeeded: every
later step of `generate_flight_record` is total. `g` is the record's
random stream (slots 1..7), `now` the `created_at` timestamp string. -/
def mkRecord (g : Nat → Nat) (now : String) (record_id route_id : Nat)
    (start_date : Int) (offset : Int) : FlightRecord :=
  let aircraft_type := aircraftTypeOf (g 3)
  let cabin_class := cabinClassOf (randintNat 1 100 (g 4))
  let max_pax := cabinScaledPax cabin_class (drawCapacity aircraft_type (g 5))
  let base_co2 := cabinScaledCo2 cabin_class (drawBaseCo2 aircraft_type (g 6))
  let lf := loadFactorCenti (g 7)
  let passengers := passengersOf max_pax lf
  { record_id := record_id
    route_id := route_id
    flight_date := start_date + offset
    flight_number := mkFlightNumber (g 1) (g 2)
    aircraft_type := aircraft_type
    passengers := passengers
    load_factor := lf
    cabin_class := cabin_class
    total_co2_kg := passengers * base_co2
    co2_per_passenger_kg := base_co2
    created_at := now }

/-- Embedding of `FlightDataGeneratorCSV.generate_flight_record`: samples
the flight-date offset with `randint(0, (end_date - start_date).days)` —
the only step that can raise — then builds the record. -/
def generate_flight_record (cfg : Config) (g : Nat → Nat) (now : String)
    (record_id route_id : Nat) : Except String FlightRecord :=
  match randint 0 (cfg.end_date - cfg.start_date) (g 0) with
  | Except.error e => Except.error e
  | Except.ok offset => Except.ok (mkRecord g now record_id route_id cfg.start_date offset)

/-- The CSV header row written by `writer.writeheader()`: the fixed field
order of `fieldnames`. -/
def headerLine : String :=
  "record_id,route_id,flight_date,flight_number,aircraft_type,passengers,load_factor,cabin_class,total_co2_kg,co2_per_passenger_kg,created_at"

/-- Two-decimal rendering of the centi-percent load factor
(the format `f"\x7bload_factor:.2f\x7d"`). -/
def formatLoadFactor (centi : Nat) : String :=
  toString (centi / 100) ++ "." ++ String.mk [digitChar (centi / 10), digitChar centi]

/-- One CSV data row in the fixed field order.  No generated field contains
the delimiter, a quote or a line break, so `csv.QUOTE_MINIMAL` emits the
fields verbatim, comma-joined. -/
def serializeRecord (r : FlightRecord) : String :=
  String.intercalate ","
    [toString r.record_id, toString r.route_id, toString r.flight_date,
     r.flight_number, r.aircraft_type, toString r.passengers,
     formatLoadFactor r.load_factor, r.cabin_class,
     toString r.total_co2_kg, toString r.co2_per_passenger_kg, r.created_at]

/-- The generation loop body over the remaining record ids: for each id,
draw `route_id = randint(1, 10000)` (slot 8 of the record's stream), call
`generate_flight_record`, and write the row.  Returns the records written
before any failure, and the loop's outcome; an exception stops the loop,
already-written rows remain. -/
def runRows (cfg : Config) (G : Nat → Nat → Nat) (now : String) :
    List Nat → List FlightRecord × Except String Unit
  | [] => ([], Except.ok ())
  | i :: rest =>
    match generate_flight_record cfg (G i) now i (randintNat 1 10000 (G i 8)) with
    | Except.error e => ([], Except.error e)
    | Except.ok r =>
      let p := runRows cfg G now rest
      (r :: p.1, p.2)

/-- Embedding of `FlightDataGeneratorCSV.generate_to_csv` as a file-content
function: `open(output_file, 'w')` truncates the previous content `prev`,
the header is written first, then the loop runs `record_id` from 1 to
`total_records`.  Result: the lines of the output file, and the outcome
(any exception propagates to the caller after the file is closed). -/
def generate_to_csv (_prev : List String) (cfg : Config) (G : Nat → Nat → Nat)
    (now : String) : List String × Except String Unit :=
  let p := runRows cfg G now (List.range' 1 cfg.total_records)
  (headerLine :: p.1.map serializeRecord, p.2)

/-- Fixed concrete inputs used by witnesses: a one-day date range. -/
def cfg0 : Config := { total_records := 1, batch_size := 1, start_date := 0, end_date := 0 }

/-- All-zero random stream. -/
def gZero : Nat → Nat := fun _ => 0

/-- The record `generate_flight_record cfg0 gZero "t" 1 1` produces. -/
def rec0 : FlightRecord :=
  { record_id := 1, route_id := 1, flight_date := 0, flight_number := "AA0100",
    aircraft_type := "A320", passengers := 90, load_factor := 6000,
    cabin_class := "economy", total_co2_kg := 7200, co2_per_passenger_kg := 80,
    created_at := "t" }

/-- Embedding of `main()`: runs the generator inside
`try: ... except Exception as e: print(...)`.  The exception handler only
prints; in both branches the function returns normally, so the process
exit status is 0.  Result: final file content and exit status. -/
def mainRun (prev : List String) (cfg : Config) (G : Nat → Nat → Nat)
    (now : String) : List String × Nat :=
  let p := generate_to_csv prev cfg G now
  match p.2 with
  | Except.ok _ => (p.1, 0)
  | Except.error _ => (p.1, 0)

theorem randint_ok (lo hi : Int) (n : Nat) (h : lo ≤ hi) :
    randint lo hi n = Except.ok (lo + (n : Int) % (hi - lo + 1)) := by
  unfold randint
  rw [if_neg (not_lt.mpr h)]

theorem randint_err (lo hi : Int) (n : Nat) (h : hi < lo) :
    randint lo hi n = Except.error "empty range for randrange()" := by
  unfold randint
  rw [if_pos h]

theorem randintNat_mem (lo hi n : Nat) (h : lo ≤ hi) :
    lo ≤ randintNat lo hi n ∧ randintNat lo hi n ≤ hi := by
  unfold randintNat
  have h2 : n % (hi + 1 - lo) < hi + 1 - lo := Nat.mod_lt _ (by omega)
  omega

theorem randintNat_hit (lo hi v : Nat) (h1 : lo ≤ v) (h2 : v ≤ hi) :
    randintNat lo hi (v - lo) = v := by
  unfold randintNat
  have h3 : (v - lo) % (hi + 1 - lo) = v - lo := Nat.mod_eq_of_lt (by omega)
  omega

theorem generate_ok (cfg : Config) (g : Nat → Nat) (now : String) (i rid : Nat)
    (h : cfg.start_date ≤ cfg.end_date) :
    generate_flight_record cfg g now i rid =
      Except.ok (mkRecord g now i rid cfg.start_date
        ((g 0 : Int) % (cfg.end_date - cfg.start_date + 1))) := by
  unfold generate_flight_record
  rw [randint_ok 0 (cfg.end_date - cfg.start_date) (g 0) (by omega)]
  norm_num

theorem generate_err (cfg : Config) (g : Nat → Nat) (now : String) (i rid : Nat)
    (h : cfg.end_date < cfg.start_date) :
    generate_flight_record cfg g now i rid =
      Except.error "empty range for randrange()" := by
  unfold generate_flight_record
  rw [randint_err 0 (cfg.end_date - cfg.start_date) (g 0) (by omega)]

theorem generate_ok_elim (cfg : Config) (g : Nat → Nat) (now : String)
    (i rid : Nat) (r : FlightRecord)
    (h : generate_flight_record cfg g now i rid = Except.ok r) :
    cfg.start_date ≤ cfg.end_date ∧
      r = mkRecord g now i rid cfg.start_date
        ((g 0 : Int) % (cfg.end_date - cfg.start_date + 1)) := by
  by_cases hle : cfg.start_date ≤ cfg.end_date
  · rw [generate_ok cfg g now i rid hle] at h
    injection h with h
    exact ⟨hle, h.symm⟩
  · rw [generate_err cfg g now i rid (by omega)] at h
    cases h

theorem mkRecord_record_id (g : Nat → Nat) (now : String) (i rid : Nat)
    (sd off : Int) : (mkRecord g now i rid sd off).record_id = i := rfl

theorem mkRecord_flight_date (g : Nat → Nat) (now : String) (i rid : Nat)
    (sd off : Int) : (mkRecord g now i rid sd off).flight_date = sd + off := rfl

theorem mkRecord_cabin_class (g : Nat → Nat) (now : String) (i rid : Nat)
    (sd off : Int) :
    (mkRecord g now i rid sd off).cabin_class = cabinClassOf (randintNat 1 100 (g 4)) := rfl

theorem mkRecord_aircraft_type (g : Nat → Nat) (now : String) (i rid : Nat)
    (sd off : Int) :
    (mkRecord g now i rid sd off).aircraft_type = aircraftTypeOf (g 3) := rfl

theorem mkRecord_passengers (g : Nat → Nat) (now : String) (i rid : Nat)
    (sd off : Int) :
    (mkRecord g now i rid sd off).passengers =
      passengersOf
        (cabinScaledPax (cabinClassOf (randintNat 1 100 (g 4)))
          (drawCapacity (aircraftTypeOf (g 3)) (g 5)))
        (loadFactorCenti (g 7)) := rfl

/-- C1: for every generated record, `total_co2_kg` is exactly
`passengers * co2_per_passenger_kg` in integer arithmetic. -/
theorem C1_total_co2_exact (cfg : Config) (g : Nat → Nat) (now : String)
    (i rid : Nat) (r : FlightRecord)
    (h : generate_flight_record cfg g now i rid = Except.ok r) :
    r.total_co2_kg = r.passengers * r.co2_per_passenger_kg := by
  obtain ⟨-, rfl⟩ := generate_ok_elim cfg g now i rid r h
  rfl

theorem C1_witness :
    generate_flight_record cfg0 gZero "t" 1 1 = Except.ok rec0 ∧
      rec0.total_co2_kg = rec0.passengers * rec0.co2_per_passenger_kg :=
  ⟨by rfl, C1_total_co2_exact cfg0 gZero "t" 1 1 rec0 (by rfl)⟩

/-- C6: under the precondition `start_date ≤ end_date`, every generated
record's `flight_date` lies within `[start_date, end_date]` inclusive, and
when the two bounds coincide the `flight_date` equals that single date. -/
theorem C6_flight_date_in_range (cfg : Config) (g : Nat → Nat) (now : String)
    (i rid : Nat) (r : FlightRecord)
    (hle : cfg.start_date ≤ cfg.end_date)
    (h : generate_flight_record cfg g now i rid = Except.ok r) :
    (cfg.start_date ≤ r.flight_date ∧ r.flight_date ≤ cfg.end_date) ∧
      (cfg.start_date = cfg.end_date → r.flight_date = cfg.start_date) := by
  obtain ⟨-, rfl⟩ := generate_ok_elim cfg g now i rid r h
  rw [mkRecord_flight_date]
  have h1 : 0 ≤ (g 0 : Int) % (cfg.end_date - cfg.start_date + 1) :=
    Int.emod_nonneg _ (by omega)
  have h2 : (g 0 : Int) % (cfg.end_date - cfg.start_date + 1) <
      cfg.end_date - cfg.start_date + 1 :=
    Int.emod_lt_of_pos _ (by omega)
  omega

theorem C6_witness :
    cfg0.start_date ≤ cfg0.end_date ∧
      ((cfg0.start_date ≤ rec0.flight_date ∧ rec0.flight_date ≤ cfg0.end_date) ∧
        (cfg0.start_date = cfg0.end_date → rec0.flight_date = cfg0.start_date)) :=
  ⟨by decide, C6_flight_date_in_range cfg0 gZero "t" 1 1 rec0 (by decide) (by rfl)⟩

theorem loadFactorCenti_le (n : Nat) : loadFactorCenti n ≤ 9500 :=
  (randintNat_mem 6000 9500 n (by omega)).2

theorem passengersOf_le_max (m n : Nat) : passengersOf m (loadFactorCenti n) ≤ m := by
  unfold passengersOf
  have h1 : m * loadFactorCenti n ≤ m * 10000 :=
    Nat.mul_le_mul_left m (le_trans (loadFactorCenti_le n) (by omega))
  calc m * loadFactorCenti n / 10000 ≤ m * 10000 / 10000 := Nat.div_le_div_right h1
    _ = m := Nat.mul_div_cancel m (by omega)

/-- C4: every generated record's passenger count is a non-negative integer,
is computed by flooring `max_pax * load_factor / 100`, and never exceeds the
cabin-class-scaled capacity (business ×0.6, first ×0.3, economy unchanged,
truncated to integer). -/
theorem C4_passengers_bounded (cfg : Config) (g : Nat → Nat) (now : String)
    (i rid : Nat) (r : FlightRecord)
    (h : generate_flight_record cfg g now i rid = Except.ok r) :
    0 ≤ r.passengers ∧
      r.passengers =
        passengersOf (cabinScaledPax r.cabin_class (drawCapacity r.aircraft_type (g 5)))
          (loadFactorCenti (g 7)) ∧
      r.passengers ≤ cabinScaledPax r.cabin_class (drawCapacity r.aircraft_type (g 5)) ∧
      (∀ mp : Nat, cabinScaledPax "business" mp = mp * 6 / 10 ∧
        cabinScaledPax "first" mp = mp * 3 / 10 ∧
        cabinScaledPax "economy" mp = mp) := by
  obtain ⟨-, rfl⟩ := generate_ok_elim cfg g now i rid r h
  refine ⟨Nat.zero_le _, ?_, ?_, ?_⟩
  · rw [mkRecord_passengers, mkRecord_cabin_class, mkRecord_aircraft_type]
  · rw [mkRecord_passengers, mkRecord_cabin_class, mkRecord_aircraft_type]
    exact passengersOf_le_max _ _
  · intro mp
    refine ⟨?_, ?_, ?_⟩ <;> simp [cabinScaledPax]

theorem C4_witness :
    0 ≤ rec0.passengers ∧
      rec0.passengers =
        passengersOf (cabinScaledPax rec0.cabin_class (drawCapacity rec0.aircraft_type 0))
          (loadFactorCenti 0) ∧
      rec0.passengers ≤ cabinScaledPax rec0.cabin_class (drawCapacity rec0.aircraft_type 0) ∧
      (∀ mp : Nat, cabinScaledPax "business" mp = mp * 6 / 10 ∧
        cabinScaledPax "first" mp = mp * 3 / 10 ∧
        cabinScaledPax "economy" mp = mp) :=
  C4_passengers_bounded cfg0 gZero "t" 1 1 rec0 (by rfl)

/-- C5: the cabin class comes from a uniform selector in `[1, 100]`; a value
below 85 gives economy, one in `[85, 96]` gives business, anything else
gives first, so of the 100 equally likely selector values 84 give economy,
12 give business and 4 give first. -/
theorem C5_cabin_class_thresholds :
    (∀ n : Nat, 1 ≤ randintNat 1 100 n ∧ randintNat 1 100 n ≤ 100) ∧
    (∀ v : Nat, 1 ≤ v → v ≤ 100 →
      ((cabinClassOf v = "economy") ↔ v < 85) ∧
      ((cabinClassOf v = "business") ↔ (85 ≤ v ∧ v < 97)) ∧
      ((cabinClassOf v = "first") ↔ 97 ≤ v)) ∧
    ((List.range' 1 100).filter (fun v => cabinClassOf v = "economy")).length = 84 ∧
    ((List.range' 1 100).filter (fun v => cabinClassOf v = "business")).length = 12 ∧
    ((List.range' 1 100).filter (fun v => cabinClassOf v = "first")).length = 4 := by
  refine ⟨fun n => randintNat_mem 1 100 n (by omega), ?_, by decide, by decide, by decide⟩
  intro v h1 h2
  unfold cabinClassOf
  split_ifs with ha hb
  all_goals refine ⟨?_, ?_, ?_⟩
  all_goals simp_all
  all_goals omega

theorem C5_witness :
    cabinClassOf 84 = "economy" ∧ cabinClassOf 85 = "business" ∧
      cabinClassOf 97 = "first" :=
  ⟨((C5_cabin_class_thresholds.2.1 84 (by decide) (by decide)).1).mpr (by decide),
   ((C5_cabin_class_thresholds.2.1 85 (by decide) (by decide)).2.1).mpr (by decide),
   ((C5_cabin_class_thresholds.2.1 97 (by decide) (by decide)).2.2).mpr (by decide)⟩

/-- C2: an aircraft type carrying a narrow-body marker substring draws its
pre-multiplier capacity from `[150, 220]` and its pre-multiplier base
emission from `[80, 120]`; every other aircraft type draws capacity from
`[250, 400]` and base emission from `[150, 250]`.  Each draw lands in its
range and every value of the range is reached by some stream value. -/
theorem C2_body_type_ranges (a : String) (n : Nat) :
    (isNarrowBody a = true →
      (150 ≤ drawCapacity a n ∧ drawCapacity a n ≤ 220) ∧
      (80 ≤ drawBaseCo2 a n ∧ drawBaseCo2 a n ≤ 120) ∧
      (∀ v : Nat, 150 ≤ v → v ≤ 220 → ∃ m : Nat, drawCapacity a m = v) ∧
      (∀ v : Nat, 80 ≤ v → v ≤ 120 → ∃ m : Nat, drawBaseCo2 a m = v)) ∧
    (isNarrowBody a = false →
      (250 ≤ drawCapacity a n ∧ drawCapacity a n ≤ 400) ∧
      (150 ≤ drawBaseCo2 a n ∧ drawBaseCo2 a n ≤ 250) ∧
      (∀ v : Nat, 250 ≤ v → v ≤ 400 → ∃ m : Nat, drawCapacity a m = v) ∧
      (∀ v : Nat, 150 ≤ v → v ≤ 250 → ∃ m : Nat, drawBaseCo2 a m = v)) := by
  constructor <;> intro hb
  all_goals
    simp only [drawCapacity, drawBaseCo2, hb, if_true, if_false, Bool.false_eq_true]
    exact ⟨randintNat_mem _ _ _ (by omega), randintNat_mem _ _ _ (by omega),
      fun v hv1 hv2 => ⟨v - _, randintNat_hit _ _ v hv1 hv2⟩,
      fun v hv1 hv2 => ⟨v - _, randintNat_hit _ _ v hv1 hv2⟩⟩

theorem C2_witness :
    isNarrowBody "A320" = true ∧ isNarrowBody "B789" = false ∧
      (150 ≤ drawCapacity "A320" 0 ∧ drawCapacity "A320" 0 ≤ 220) ∧
      (250 ≤ drawCapacity "B789" 0 ∧ drawCapacity "B789" 0 ≤ 400) :=
  ⟨by decide, by decide,
   ((C2_body_type_ranges "A320" 0).1 (by decide)).1,
   ((C2_body_type_ranges "B789" 0).2 (by decide)).1⟩

theorem digitChar_ne_comma (d : Nat) : digitChar d ≠ ',' := by
  unfold digitChar
  have h : d % 10 < 10 := Nat.mod_lt _ (by omega)
  generalize hm : d % 10 = m at h ⊢
  interval_cases m <;> decide

theorem airline_codes_facts :
    ∀ c ∈ airline_codes, c.toList.length = 2 ∧ ',' ∉ c.toList := by
  intro c hc
  fin_cases hc <;> exact ⟨rfl, by decide⟩

/-- C8: the flight number is an airline code chosen from the fixed 10-entry
catalog followed by the `randint(100, 9999)` suffix rendered as four
zero-padded digits, the concatenation truncated to at most 10 characters;
the result is at most 10 characters long and contains no comma. -/
theorem C8_flight_number (a s : Nat) :
    airline_codes.length = 10 ∧
    (∃ code, code ∈ airline_codes ∧ ∃ k : Nat, 100 ≤ k ∧ k ≤ 9999 ∧
      mkFlightNumber a s = String.mk ((code.toList ++ (pad4 k).toList).take 10)) ∧
    (mkFlightNumber a s).length ≤ 10 ∧
    ',' ∉ (mkFlightNumber a s).toList := by
  have ha : a % airline_codes.length < airline_codes.length := Nat.mod_lt _ (by decide)
  have hmem : airline_codes.getD (a % airline_codes.length) "" ∈ airline_codes := by
    rw [List.getD_eq_getElem airline_codes "" ha]
    exact List.getElem_mem ha
  have hk := randintNat_mem 100 9999 s (by omega)
  refine ⟨rfl, ⟨airline_codes.getD (a % airline_codes.length) "", hmem,
    randintNat 100 9999 s, hk.1, hk.2, rfl⟩, ?_, ?_⟩
  · show (((airline_codes.getD (a % airline_codes.length) "").toList
      ++ (pad4 (randintNat 100 9999 s)).toList).take 10).length ≤ 10
    exact List.length_take_le 10 _
  · intro hin
    have hin2 : ',' ∈ (airline_codes.getD (a % airline_codes.length) "").toList
        ++ (pad4 (randintNat 100 9999 s)).toList :=
      List.mem_of_mem_take hin
    rcases List.mem_append.mp hin2 with hc | hp
    · exact (airline_codes_facts _ hmem).2 hc
    · have hp2 : ',' ∈ [digitChar (randintNat 100 9999 s / 1000),
        digitChar (randintNat 100 9999 s / 100), digitChar (randintNat 100 9999 s / 10),
        digitChar (randintNat 100 9999 s)] := hp
      simp only [List.mem_cons, List.not_mem_nil, or_false] at hp2
      rcases hp2 with h | h | h | h <;> exact digitChar_ne_comma _ h.symm

theorem runRows_ids (cfg : Config) (G : Nat → Nat → Nat) (now : String) :
    ∀ l : List Nat, (runRows cfg G now l).2 = Except.ok () →
      (runRows cfg G now l).1.map FlightRecord.record_id = l := by
  intro l
  induction l with
  | nil => intro _; rfl
  | cons i t ih =>
    intro h
    unfold runRows at h ⊢
    cases hgen : generate_flight_record cfg (G i) now i (randintNat 1 10000 (G i 8)) with
    | error e =>
      rw [hgen] at h
      simp at h
    | ok r =>
      rw [hgen] at h
      replace h : (runRows cfg G now t).2 = Except.ok () := h
      show (r :: (runRows cfg G now t).1).map FlightRecord.record_id = i :: t
      obtain ⟨-, rfl⟩ := generate_ok_elim _ _ _ _ _ _ hgen
      rw [List.map_cons, mkRecord_record_id, ih h]

/-- C7: when a run completes, the record ids of the rows written are exactly
the contiguous sequence `1..total_records`, in strictly increasing order,
with no duplicates; the file body is these rows in that order. -/
theorem C7_record_ids_contiguous (prev : List String) (cfg : Config)
    (G : Nat → Nat → Nat) (now : String)
    (h : (runRows cfg G now (List.range' 1 cfg.total_records)).2 = Except.ok ()) :
    ((runRows cfg G now (List.range' 1 cfg.total_records)).1.map FlightRecord.record_id
        = List.range' 1 cfg.total_records) ∧
      (runRows cfg G now (List.range' 1 cfg.total_records)).1.length = cfg.total_records ∧
      List.Pairwise (· < ·)
        ((runRows cfg G now (List.range' 1 cfg.total_records)).1.map FlightRecord.record_id) ∧
      List.Nodup
        ((runRows cfg G now (List.range' 1 cfg.total_records)).1.map FlightRecord.record_id) ∧
      (generate_to_csv prev cfg G now).1 =
        headerLine ::
          (runRows cfg G now (List.range' 1 cfg.total_records)).1.map serializeRecord := by
  have hids := runRows_ids cfg G now (List.range' 1 cfg.total_records) h
  refine ⟨hids, ?_, ?_, ?_, rfl⟩
  · have := congrArg List.length hids
    simpa using this
  · rw [hids]; exact List.pairwise_lt_range' 1 cfg.total_records
  · rw [hids]; exact List.nodup_range' 1 cfg.total_records

theorem C7_witness :
    (runRows cfg0 (fun _ _ => 0) "t" (List.range' 1 cfg0.total_records)).2 = Except.ok () ∧
      ((runRows cfg0 (fun _ _ => 0) "t" (List.range' 1 cfg0.total_records)).1.map
          FlightRecord.record_id = List.range' 1 cfg0.total_records) :=
  ⟨by rfl,
   (C7_record_ids_contiguous [] cfg0 (fun _ _ => 0) "t" (by rfl)).1⟩

/-- All-zero two-level random stream. -/
def gZero2 : Nat → Nat → Nat := fun _ _ => 0

/-- Concrete configuration with a zero record count. -/
def cfgZ : Config := { total_records := 0, batch_size := 1, start_date := 0, end_date := 0 }

/-- Concrete malformed configuration: `end_date` earlier than `start_date`. -/
def cfgBad : Config := { total_records := 3, batch_size := 1, start_date := 5, end_date := 4 }

theorem generate_to_csv_invalid_range (prev : List String) (cfg : Config)
    (G : Nat → Nat → Nat) (now : String)
    (hbad : cfg.end_date < cfg.start_date) (hpos : 0 < cfg.total_records) :
    generate_to_csv prev cfg G now =
      ([headerLine], Except.error "empty range for randrange()") := by
  obtain ⟨m, hm⟩ : ∃ m, cfg.total_records = m + 1 := ⟨cfg.total_records - 1, by omega⟩
  unfold generate_to_csv
  rw [hm, List.range'_succ]
  unfold runRows
  rw [generate_err cfg (G 1) now 1 (randintNat 1 10000 (G 1 8)) hbad]
  rfl

/-- C9: with `total_records = 0` the output file is exactly the header line
and no data row, and with `total_records = 1` (and a valid date range) it is
the header followed by exactly one data row whose record id is 1. -/
theorem C9_boundary_counts (prev : List String) (cfg : Config)
    (G : Nat → Nat → Nat) (now : String) :
    (cfg.total_records = 0 →
      generate_to_csv prev cfg G now = ([headerLine], Except.ok ())) ∧
    (cfg.total_records = 1 → cfg.start_date ≤ cfg.end_date →
      ∃ r : FlightRecord, r.record_id = 1 ∧
        generate_to_csv prev cfg G now =
          ([headerLine, serializeRecord r], Except.ok ())) := by
  constructor
  · intro h0
    unfold generate_to_csv
    rw [h0]
    rfl
  · intro h1 hle
    have hr : List.range' 1 cfg.total_records = [1] := by rw [h1]; rfl
    refine ⟨mkRecord (G 1) now 1 (randintNat 1 10000 (G 1 8)) cfg.start_date
      ((G 1 0 : Int) % (cfg.end_date - cfg.start_date + 1)), rfl, ?_⟩
    unfold generate_to_csv
    rw [hr]
    unfold runRows
    rw [generate_ok cfg (G 1) now 1 (randintNat 1 10000 (G 1 8)) hle]
    rfl

theorem C9_witness :
    generate_to_csv [] cfgZ gZero2 "t" = ([headerLine], Except.ok ()) ∧
      ∃ r : FlightRecord, r.record_id = 1 ∧
        generate_to_csv [] cfg0 gZero2 "t" =
          ([headerLine, serializeRecord r], Except.ok ()) :=
  ⟨(C9_boundary_counts [] cfgZ gZero2 "t").1 rfl,
   (C9_boundary_counts [] cfg0 gZero2 "t").2 rfl (by decide)⟩

/-- C10: when `end_date` is earlier than `start_date` (and the record count
is positive), the failure happens while generating the first record, after
the file has been opened with truncation and the header written: whatever
the previous file content, the final content is exactly the header line, no
record is produced, and the error propagates out of the writer. -/
theorem C10_nonatomic_on_bad_range (prev : List String) (cfg : Config)
    (G : Nat → Nat → Nat) (now : String)
    (hbad : cfg.end_date < cfg.start_date) (hpos : 0 < cfg.total_records) :
    generate_to_csv prev cfg G now =
      ([headerLine], Except.error "empty range for randrange()") :=
  generate_to_csv_invalid_range prev cfg G now hbad hpos

theorem C10_witness :
    generate_to_csv ["stale line"] cfgBad gZero2 "t" =
      ([headerLine], Except.error "empty range for randrange()") :=
  C10_nonatomic_on_bad_range ["stale line"] cfgBad gZero2 "t" (by decide) (by decide)

/-- C3 counterexample: on the malformed configuration `cfgBad`
(`end_date < start_date`), the process exit status is 0 rather than
non-zero — `main` swallows the error — and on a zero record count the run
does not fail at all, against the claim that every malformed configuration
fails with a non-zero exit before any record is generated. -/
theorem C3_counterexample :
    (mainRun [] cfgBad gZero2 "t").2 = 0 ∧
      (generate_to_csv [] cfgZ gZero2 "t").2 = Except.ok () :=
  ⟨by rfl, by rfl⟩

/-- C3 (amended): with `end_date` earlier than `start_date` and a positive
record count, generation fails before any record is produced — though only
after the header row is written — and the top-level runner catches the
error, so the process finishes with exit status 0; a non-positive record
count causes no failure at all: the loop body never runs and the run
succeeds with a header-only file. -/
theorem C3_amended_config_error_behavior (prev : List String) (cfg : Config)
    (G : Nat → Nat → Nat) (now : String) :
    (cfg.end_date < cfg.start_date → 0 < cfg.total_records →
      generate_to_csv prev cfg G now =
          ([headerLine], Except.error "empty range for randrange()") ∧
        (mainRun prev cfg G now).2 = 0) ∧
    (cfg.total_records = 0 → mainRun prev cfg G now = ([headerLine], 0)) := by
  constructor
  · intro hbad hpos
    have hc := generate_to_csv_invalid_range prev cfg G now hbad hpos
    refine ⟨hc, ?_⟩
    unfold mainRun
    rw [hc]
  · intro h0
    unfold mainRun generate_to_csv
    rw [h0]
    rfl

theorem C3_amended_witness :
    (generate_to_csv ["old"] cfgBad gZero2 "t" =
        ([headerLine], Except.error "empty range for randrange()") ∧
      (mainRun ["old"] cfgBad gZero2 "t").2 = 0) ∧
      mainRun ["old"] cfgZ gZero2 "t" = ([headerLine], 0) :=
  ⟨(C3_amended_config_error_behavior ["old"] cfgBad gZero2 "t").1 (by decide) (by decide),
   (C3_amended_config_error_behavior ["old"] cfgZ gZero2 "t").2 rfl⟩

end FlightGen
